import Mathlib

/-!
Shallow embedding of blzlib (src/blzlib.c), a synchronous wrapper around the
BlueZ D-Bus API.  External bus operations (sd_bus_*) are modelled by
environments that supply each operation's result, and each embedded function
additionally returns the list of bus-visible events it produced, in order.
Machine integers are modelled as Nat/Int with explicit reduction modulo 2^32
where the C code uses uint32_t.
-/

namespace Blzlib

/-- Reduction modulo 2^32: the value of a C uint32_t expression. -/
def u32 (n : Nat) : Nat := n % 4294967296

/-- SIZE_MAX on the 64-bit targets blzlib is built for. -/
def SIZE_MAX : Nat := 18446744073709551615

/-- Conversion of a C size_t value to int (LP64): truncate to 32 bits and
reinterpret as two's complement. -/
def size_to_int (n : Nat) : Int :=
  let m := n % 4294967296
  if m < 2147483648 then (m : Int) else (m : Int) - 4294967296

/-!
## Wait/Poll engine: blz_loop_timeout (src/blzlib.c lines 831-846)

The environment is a pair of streams: clock i is the CLOCK_MONOTONIC reading
in milliseconds taken at the i-th clock_gettime call (i = 0 is the read at
entry, i-th is the read after the i-th blz_loop call), and flag i is the value
of *check observed at the top of the i-th loop test (the flag can only change
inside blz_loop, which pumps the callbacks, since the program is
single-threaded).  The function returns the C return value together with the
list of microsecond budgets passed to blz_loop, one per executed iteration;
fuel bounds the number of iterations the model unrolls (none = the model ran
out of fuel before the C loop exited).
-/

/-- Loop body of blz_loop_timeout: while (!*check && current_ms < end_ms)
\x7b blz_loop(ctx, (end_ms - current_ms) * 1000); re-read clock \x7d followed by
return *check ? 0 : -1.  The budget expression (end_ms - current_ms) * 1000
is computed in uint32_t arithmetic (both operands are uint32_t), so it is
reduced mod 2^32 before being widened to blz_loop's uint64_t parameter; the
subtraction itself cannot wrap because the loop condition guarantees
current_ms < end_ms. -/
def blz_loop_timeout_aux (flag : Nat → Bool) (clock : Nat → Nat) (end_ms : Nat) :
    Nat → Nat → Option (Int × List Nat)
  | _, 0 => none
  | i, fuel + 1 =>
    let current_ms := u32 (clock i)
    if flag i = false ∧ current_ms < end_ms then
      match blz_loop_timeout_aux flag clock end_ms (i + 1) fuel with
      | none => none
      | some (r, budgets) => some (r, u32 ((end_ms - current_ms) * 1000) :: budgets)
    else
      some (if flag i then 0 else -1, [])

/-- blz_loop_timeout: current_ms and end_ms are uint32_t; end_ms is computed
once at entry as current_ms + timeout_ms (mod 2^32). -/
def blz_loop_timeout (flag : Nat → Bool) (clock : Nat → Nat)
    (timeout_ms : Nat) (fuel : Nat) : Option (Int × List Nat) :=
  blz_loop_timeout_aux flag clock (u32 (u32 (clock 0) + u32 timeout_ms)) 0 fuel

/-!
## Bus-visible events

One inductive covers the bus-visible actions of all embedded functions, so
that ordering and counting properties can be stated over a single trace type.
-/

/-- Bus-visible actions, in the order the C code performs them. -/
inductive Event
  | getConnected
  | getServicesResolved
  | matchPropertiesChanged
  | connectCall
  | connectNewAttempt (addrPublic : Bool)
  | connectDeviceCall (addrPublic : Bool)
  | waitConnectNewDone
  | waitServicesResolved (success : Bool)
  | slotUnref
  | disconnectCall
  | freeServiceUuids
  | freeCharUuids
  | busUnref
  | readValueCall
  | writeValueCall
  | notifyMatchSignal
  | startNotifyCall
  | waitNotifying
  | stopNotifyCall
  | acquireWriteCall
deriving DecidableEq, Repr

/-- Number of occurrences of an event in a trace. -/
def countEv (e : Event) : List Event → Nat
  | [] => 0
  | x :: rest => (if x = e then 1 else 0) + countEv e rest

/-- Is this event one of the two connect calls of blz_connect (path-based
Connect, or address-based ConnectDevice and its enclosing attempt)? -/
def isConnectCall : Event → Bool
  | Event.connectCall => true
  | Event.connectNewAttempt _ => true
  | Event.connectDeviceCall _ => true
  | _ => false

/-- Number of connect-call events occurring before the first
PropertiesChanged subscription in a trace (0 means every connect call is
preceded by the subscription). -/
def connectsBeforeSub : List Event → Nat
  | [] => 0
  | e :: rest =>
    if e = Event.matchPropertiesChanged then 0
    else (if isConnectCall e then 1 else 0) + connectsBeforeSub rest

/-- The address types (addr_public booleans) of the blz_connect_new attempts
recorded in a trace, in order. -/
def attemptTypes (tr : List Event) : List Bool :=
  tr.filterMap fun e =>
    match e with
    | Event.connectNewAttempt p => some p
    | _ => none

/-!
## Session and device teardown: blz_fini, blz_disconnect
-/

/-- blz_fini (src/blzlib.c lines 70-77): NULL context is a no-op; otherwise
the bus reference is released and the context freed. -/
def blz_fini : Option Unit → List Event
  | none => []
  | some _ => [Event.busUnref]

/-- The resources of a blz_dev that blz_disconnect touches: whether the
PropertiesChanged subscription slot is still held, and the cached UUID lists
(none models a NULL pointer, i.e. a list never populated). -/
structure DevRes where
  connect_slot : Bool
  service_uuids : Option (List String)
  char_uuids : Option (List String)
deriving DecidableEq, Repr

/-- blz_disconnect (src/blzlib.c lines 452-488).  A NULL dev returns at once.
Otherwise the slot is released only if still present, the remote Disconnect
call is always attempted (its result disconnect_call_r is only logged), and
both cached UUID lists are freed exactly once each (free of a NULL list is
the no-op free(NULL); the free call still happens, so the event is emitted
unconditionally, as in the C code). -/
def blz_disconnect (dev : Option DevRes) (disconnect_call_r : Int) : List Event :=
  match dev with
  | none => []
  | some d =>
    (if d.connect_slot then [Event.slotUnref] else [])
      ++ [Event.disconnectCall]
      ++ [Event.freeServiceUuids, Event.freeCharUuids]

/-!
## Connect path: connect_new_cb, blz_connect_new, blz_connect
-/

/-- Modelled from the header (blzlib.h, not under src/), as described by the
spec: the caller-supplied address type, public or random, or unspecified. -/
inductive AddrType
  | unknown
  | public
  | random
deriving DecidableEq, Repr

/-- A reply delivered to the asynchronous ConnectDevice callback: either an
error reply (sd_bus_message_get_error non-NULL, with its errno), or a normal
reply from which reading the object path gives result read_r and, when
read_r >= 0, the path opath. -/
inductive Reply
  | err (errno : Nat)
  | ok (read_r : Int) (opath : String)
deriving DecidableEq, Repr

/-- The fields of blz_dev that connect_new_cb touches. -/
structure CbDev where
  path : String
  connect_new_result : Int
  connect_new_done : Bool
deriving DecidableEq, Repr

/-- connect_new_cb (src/blzlib.c lines 208-239): error replies yield
r = -errno; a failed path read yields its negative result; a successful read
whose object path differs from dev->path yields r = -1; otherwise r is the
(non-negative) read result.  In every case the result is stored in
dev->connect_new_result and dev->connect_new_done is set. -/
def connect_new_cb (reply : Reply) (dev : CbDev) : Int × CbDev :=
  let r : Int :=
    match reply with
    | Reply.err errno => -(errno : Int)
    | Reply.ok read_r opath =>
      if read_r < 0 then read_r
      else if opath = dev.path then read_r
      else -1
  (r, { dev with connect_new_result := r, connect_new_done := true })

/-- Results the bus gives to the successive sd_bus operations inside
blz_connect_new, plus the result the ConnectDevice callback stored
(meaningful when the wait succeeded). -/
structure ConnectNewEnv where
  new_method_call_r : Int
  open_container_r : Int
  append_address_r : Int
  append_addrtype_r : Int
  close_container_r : Int
  call_async_r : Int
  wait_r : Int
  connect_new_result : Int
deriving DecidableEq, Repr

/-- blz_connect_new (src/blzlib.c lines 241-314): build the ConnectDevice
message (any failure aborts with that result, before any call is issued),
dispatch it asynchronously, then wait on the connect_new_done flag; on wait
success the callback-stored result is returned. -/
def blz_connect_new (env : ConnectNewEnv) (addr_public : Bool) : Int × List Event :=
  let tr0 := [Event.connectNewAttempt addr_public]
  if env.new_method_call_r < 0 then (env.new_method_call_r, tr0)
  else if env.open_container_r < 0 then (env.open_container_r, tr0)
  else if env.append_address_r < 0 then (env.append_address_r, tr0)
  else if env.append_addrtype_r < 0 then (env.append_addrtype_r, tr0)
  else if env.close_container_r < 0 then (env.close_container_r, tr0)
  else
    let tr1 := tr0 ++ [Event.connectDeviceCall addr_public]
    if env.call_async_r < 0 then (env.call_async_r, tr1)
    else
      let tr2 := tr1 ++ [Event.waitConnectNewDone]
      if env.wait_r < 0 then (env.wait_r, tr2)
      else (env.connect_new_result, tr2)

/-- Outcome of the initial Connected property query in blz_connect. -/
inductive ConnQuery
  | ok (connected : Bool)
  | unknownObject
  | otherError
deriving DecidableEq, Repr

/-- Environment of one blz_connect execution: local allocation / path
formatting success, the property query outcomes, the match_signal result, the
path-based Connect result, the environments of the up-to-two blz_connect_new
calls, whether the services_resolved flag became true during the final 30 s
wait, and the result of the remote Disconnect issued on timeout. -/
structure ConnectEnv where
  alloc_ok : Bool
  path_ok : Bool
  connected_query : ConnQuery
  services_resolved_query : Option Bool
  match_signal_r : Int
  connect_known_r : Int
  new_env1 : ConnectNewEnv
  new_env2 : ConnectNewEnv
  wait_services_resolved : Bool
  disconnect_call_r : Int
deriving DecidableEq, Repr

/-- The device handle blz_connect returns on success. -/
structure DevOut where
  connected : Bool
  services_resolved : Bool
deriving DecidableEq, Repr

/-- The connect branch of blz_connect selected by conn_status (cs):
cs = 0 issues the path-based Connect; cs = -1 calls blz_connect_new with the
first address type (public exactly when the caller specified public) and,
when that failed and the caller left the type unspecified, retries once with
the opposite type; cs = 1 (already connected) issues no connect call and r
keeps the (non-negative) match_signal result. -/
def blz_connect_branch (env : ConnectEnv) (atype : AddrType) (cs : Int)
    (tr1 : List Event) : Int × List Event :=
  if cs = 0 then (env.connect_known_r, tr1 ++ [Event.connectCall])
  else if cs = -1 then
    let a1 := blz_connect_new env.new_env1
      (if atype = AddrType.public then true else false)
    if a1.1 < 0 ∧ atype = AddrType.unknown then
      let a2 := blz_connect_new env.new_env2
        (if atype = AddrType.public then false else true)
      (a2.1, tr1 ++ a1.2 ++ a2.2)
    else (a1.1, tr1 ++ a1.2)
  else (env.match_signal_r, tr1)

/-- The list of address types (addr_public booleans) blz_connect passes to
its blz_connect_new attempts when the ConnectDevice branch is taken:
the first attempt, and the one retry exactly when the first attempt failed
and the caller's address type is unspecified. -/
def retryAttempts (env : ConnectEnv) (atype : AddrType) : List Bool :=
  if (blz_connect_new env.new_env1
        (if atype = AddrType.public then true else false)).1 < 0
      ∧ atype = AddrType.unknown then
    [(if atype = AddrType.public then true else false),
     (if atype = AddrType.public then false else true)]
  else [(if atype = AddrType.public then true else false)]

/-- Tail of blz_connect after conn_status (cs) and the queried
ServicesResolved value (sr, false unless cs = 1) are known: subscribe to
PropertiesChanged, take the connect branch selected by cs, then wait for the
services_resolved flag; on wait timeout call blz_disconnect (the handle at
that point holds the subscription slot and no cached UUID lists) and fail. -/
def blz_connect_after_status (env : ConnectEnv) (atype : AddrType) (cs : Int)
    (sr : Bool) (tr0 : List Event) : Option DevOut × List Event :=
  let tr1 := tr0 ++ [Event.matchPropertiesChanged]
  if env.match_signal_r < 0 then (none, tr1)
  else
    let rtr := blz_connect_branch env atype cs tr1
    if rtr.1 < 0 then (none, rtr.2)
    else
      let srOk := sr || env.wait_services_resolved
      let tr2 := rtr.2 ++ [Event.waitServicesResolved srOk]
      if srOk then (some { connected := true, services_resolved := true }, tr2)
      else
        (none,
         tr2 ++ blz_disconnect (some { connect_slot := true, service_uuids := none,
                                       char_uuids := none }) env.disconnect_call_r)

/-- blz_connect (src/blzlib.c lines 316-431): allocate the handle, build the
device path, query Connected (an unknown object selects the ConnectDevice
branch), on an already-connected device query ServicesResolved, then proceed
with subscription, connect and the services-resolved wait. -/
def blz_connect (env : ConnectEnv) (atype : AddrType) : Option DevOut × List Event :=
  if env.alloc_ok = false then (none, [])
  else if env.path_ok = false then (none, [])
  else
    match env.connected_query with
    | ConnQuery.otherError => (none, [Event.getConnected])
    | ConnQuery.ok true =>
      match env.services_resolved_query with
      | none => (none, [Event.getConnected, Event.getServicesResolved])
      | some sr =>
        blz_connect_after_status env atype 1 sr
          [Event.getConnected, Event.getServicesResolved]
    | ConnQuery.ok false =>
      blz_connect_after_status env atype 0 false [Event.getConnected]
    | ConnQuery.unknownObject =>
      blz_connect_after_status env atype (-1) false [Event.getConnected]

/-- A concrete blz_connect run: device unknown to the object graph, address
type unspecified, message building and dispatch all succeed, but the
ConnectDevice callback stored -1 for the first attempt (e.g. a mismatched
object path) while the second attempt and the services-resolved wait
succeed. -/
def ceC1 : ConnectEnv :=
  { alloc_ok := true
    path_ok := true
    connected_query := ConnQuery.unknownObject
    services_resolved_query := none
    match_signal_r := 0
    connect_known_r := 0
    new_env1 := ⟨0, 0, 0, 0, 0, 0, 0, -1⟩
    new_env2 := ⟨0, 0, 0, 0, 0, 0, 0, 0⟩
    wait_services_resolved := true
    disconnect_call_r := 0 }

/-- A concrete blz_connect run: device known but not connected, the
path-based Connect succeeds, and the services_resolved flag never becomes
true within the 30 s wait. -/
def ceC3 : ConnectEnv :=
  { alloc_ok := true
    path_ok := true
    connected_query := ConnQuery.ok false
    services_resolved_query := none
    match_signal_r := 0
    connect_known_r := 0
    new_env1 := ⟨0, 0, 0, 0, 0, 0, 0, 0⟩
    new_env2 := ⟨0, 0, 0, 0, 0, 0, 0, 0⟩
    wait_services_resolved := false
    disconnect_call_r := 0 }

/-!
## GATT characteristic operations
-/

/-- Modelled from the header (blzlib.h, not under src/), as described by the
spec: the capability bitmask of a characteristic, represented as one boolean
per distinct flag bit. -/
structure CharFlags where
  read : Bool
  write : Bool
  write_without_response : Bool
  notify : Bool
  indicate : Bool
deriving DecidableEq, Repr

/-- Bus results for one blz_char_read: the ReadValue call result, the byte
array of the reply (its length is what sd_bus_message_read_array reports),
and the result of parsing that array. -/
structure ReadEnv where
  call_r : Int
  payload : List Nat
  read_array_r : Int
deriving DecidableEq, Repr

/-- blz_char_read (src/blzlib.c lines 640-678): without the read flag it
returns false (0) before any call; rlen is a size_t initialised to (size_t)-1
and is returned (as int) on every path, so failed calls return -1; on success
min(rlen, len) bytes are copied into the caller's buffer and rlen is
returned.  Returns (return value, final buffer contents, events). -/
def blz_char_read (f : CharFlags) (env : ReadEnv) (data : List Nat) (len : Nat) :
    Int × List Nat × List Event :=
  if f.read = false then (0, data, [])
  else if env.call_r < 0 then (size_to_int SIZE_MAX, data, [Event.readValueCall])
  else if env.read_array_r < 0 then (size_to_int SIZE_MAX, data, [Event.readValueCall])
  else
    let rlen := env.payload.length
    let data2 :=
      if 0 < rlen then env.payload.take (min rlen len) ++ data.drop (min rlen len)
      else data
    (size_to_int rlen, data2, [Event.readValueCall])

/-- Bus results for one blz_char_write: the message-building step results and
the synchronous WriteValue call result. -/
structure WriteEnv where
  new_method_call_r : Int
  append_array_r : Int
  open_container_r : Int
  close_container_r : Int
  call_r : Int
deriving DecidableEq, Repr

/-- blz_char_write (src/blzlib.c lines 587-638): without write or
write-without-response it returns false before any call; message-building
failures abort before the call; otherwise the WriteValue call is issued and
the overall result is r >= 0. -/
def blz_char_write (f : CharFlags) (env : WriteEnv) : Bool × List Event :=
  if (f.write || f.write_without_response) = false then (false, [])
  else if env.new_method_call_r < 0 then (false, [])
  else if env.append_array_r < 0 then (false, [])
  else if env.open_container_r < 0 then (false, [])
  else if env.close_container_r < 0 then (false, [])
  else (decide (0 ≤ env.call_r), [Event.writeValueCall])

/-- Bus results for one blz_char_notify_start: the match_signal result, the
StartNotify call result (only logged on failure), and the result of the wait
for the Notifying flag. -/
structure NotifyStartEnv where
  match_signal_r : Int
  start_notify_r : Int
  wait_r : Int
deriving DecidableEq, Repr

/-- blz_char_notify_start (src/blzlib.c lines 701-745): without notify or
indicate it returns false before any call; a match_signal failure aborts; the
StartNotify call failure is only logged, and the overall result is that of
the wait for the Notifying flag. -/
def blz_char_notify_start (f : CharFlags) (env : NotifyStartEnv) : Bool × List Event :=
  if (f.notify || f.indicate) = false then (false, [])
  else if env.match_signal_r < 0 then (false, [Event.notifyMatchSignal])
  else
    (decide (0 ≤ env.wait_r),
     [Event.notifyMatchSignal, Event.startNotifyCall, Event.waitNotifying])

/-- The fields of blz_char that blz_char_notify_stop tests. -/
structure CharNS where
  notify_slot : Bool
deriving DecidableEq, Repr

/-- blz_char_notify_stop (src/blzlib.c lines 747-773): a NULL handle or an
already-released notify slot returns false before any call; otherwise the
StopNotify call is attempted (failure only logged), the slot released, and
the result is r >= 0. -/
def blz_char_notify_stop (ch : Option CharNS) (stop_notify_r : Int) :
    Bool × List Event :=
  match ch with
  | none => (false, [])
  | some c =>
    if c.notify_slot = false then (false, [])
    else (decide (0 ≤ stop_notify_r), [Event.stopNotifyCall, Event.slotUnref])

/-- Bus results for one blz_char_write_fd_acquire: the AcquireWrite call
result, the result of reading the file descriptor from the reply, and the
descriptor returned by dup. -/
structure AcquireEnv where
  call_r : Int
  read_r : Int
  dup_fd : Int
deriving DecidableEq, Repr

/-- blz_char_write_fd_acquire (src/blzlib.c lines 775-810): without
write-without-response it returns -1 before any call; a failed AcquireWrite
call or reply read returns that negative result; otherwise the duplicated
descriptor is returned. -/
def blz_char_write_fd_acquire (f : CharFlags) (env : AcquireEnv) : Int × List Event :=
  if f.write_without_response = false then (-1, [])
  else if env.call_r < 0 then (env.call_r, [Event.acquireWriteCall])
  else if env.read_r < 0 then (env.read_r, [Event.acquireWriteCall])
  else (env.dup_fd, [Event.acquireWriteCall])

/-!
## Theorems
-/

/-- Helper: when the flag never becomes true, any terminating run of the loop
body returns -1, exits only once the (fixed) deadline is reached in uint32_t
comparison, and passes blz_loop the remaining budget recomputed from the
clock reading of that iteration. -/
theorem blz_loop_timeout_aux_never (flag : Nat → Bool) (clock : Nat → Nat)
    (e : Nat) (hflag : ∀ i, flag i = false) :
    ∀ fuel i r budgets,
      blz_loop_timeout_aux flag clock e i fuel = some (r, budgets) →
      r = -1 ∧ e ≤ u32 (clock (i + budgets.length)) ∧
      ∀ j (hj : j < budgets.length),
        budgets.get ⟨j, hj⟩ = u32 ((e - u32 (clock (i + j))) * 1000) := by
  intro fuel
  induction fuel with
  | zero =>
    intro i r budgets h
    simp [blz_loop_timeout_aux] at h
  | succ f ih =>
    intro i r budgets h
    rw [blz_loop_timeout_aux] at h
    by_cases hc : u32 (clock i) < e
    · simp only [hflag i, true_and, if_pos hc] at h
      cases hrec : blz_loop_timeout_aux flag clock e (i + 1) f with
      | none => rw [hrec] at h; exact absurd h (by simp)
      | some p =>
        obtain ⟨r', bs⟩ := p
        rw [hrec] at h
        simp only [Option.some.injEq, Prod.mk.injEq] at h
        obtain ⟨hr, hb⟩ := h
        obtain ⟨ihr, ihd, ihg⟩ := ih (i + 1) r' bs hrec
        subst hr
        subst hb
        refine ⟨ihr, ?_, ?_⟩
        · have hidx : i + (bs.length + 1) = i + 1 + bs.length := by omega
          simpa [List.length_cons, hidx] using ihd
        · intro j hj
          cases j with
          | zero => simp
          | succ k =>
            have hk : k < bs.length := by
              simpa [List.length_cons] using hj
            have := ihg k hk
            have hidx : i + 1 + k = i + (k + 1) := by omega
            simpa [List.get, hidx] using this
    · simp only [hflag i, true_and, if_neg hc] at h
      simp only [hflag i, if_neg (by simp : ¬ (false : Bool) = true),
        Option.some.injEq, Prod.mk.injEq] at h
      obtain ⟨hr, hb⟩ := h
      subst hb
      refine ⟨hr.symm, by simpa using Nat.le_of_not_lt hc, ?_⟩
      intro j hj
      simp at hj

/-- Claim C2: blz_loop_timeout with a flag already true at entry returns 0
without executing any iteration (empty budget list); with a flag that never
becomes true, any terminating run returns -1 only once the current uint32_t
clock reading has reached the deadline, the deadline being computed once at
entry as (entry reading + timeout) in uint32_t arithmetic, and every blocking
wait receives exactly the budget (deadline - current) * 1000 us computed in
uint32_t arithmetic on that iteration, a value bounded by the (un-wrapped)
remaining budget recomputed on that iteration. -/
theorem blz_loop_timeout_spec (flag : Nat → Bool) (clock : Nat → Nat)
    (timeout_ms fuel : Nat) :
    (flag 0 = true → 1 ≤ fuel →
      blz_loop_timeout flag clock timeout_ms fuel = some (0, [])) ∧
    (∀ (r : Int) (budgets : List Nat), (∀ i, flag i = false) →
      blz_loop_timeout flag clock timeout_ms fuel = some (r, budgets) →
      r = -1 ∧
      u32 (u32 (clock 0) + u32 timeout_ms) ≤ u32 (clock budgets.length) ∧
      ∀ j (hj : j < budgets.length),
        budgets.get ⟨j, hj⟩ =
          u32 ((u32 (u32 (clock 0) + u32 timeout_ms) - u32 (clock j)) * 1000) ∧
        budgets.get ⟨j, hj⟩ ≤
          (u32 (u32 (clock 0) + u32 timeout_ms) - u32 (clock j)) * 1000) := by
  constructor
  · intro hflag hfuel
    obtain ⟨f, rfl⟩ : ∃ f, fuel = f + 1 := ⟨fuel - 1, by omega⟩
    rw [blz_loop_timeout, blz_loop_timeout_aux]
    simp [hflag]
  · intro r budgets hflag h
    obtain ⟨hr, hd, hg⟩ := blz_loop_timeout_aux_never flag clock
      (u32 (u32 (clock 0) + u32 timeout_ms)) hflag fuel 0 r budgets h
    refine ⟨hr, by simpa using hd, ?_⟩
    intro j hj
    have hgj := hg j hj
    rw [Nat.zero_add] at hgj
    exact ⟨hgj, hgj ▸ Nat.mod_le _ _⟩

/-- Claim C2 witness: a flag true at entry returns immediately with no
iteration; a never-true flag (clock advancing 10 ms per read, 5 ms timeout)
returns -1 at or past the deadline with the single wait bounded by the
remaining 5000 us budget. -/
theorem blz_loop_timeout_spec_witness :
    blz_loop_timeout (fun _ => true) (fun _ => 0) 5 1 = some (0, []) ∧
    ((-1 : Int) = -1 ∧
      u32 (u32 ((fun i => i * 10) 0) + u32 5) ≤
        u32 ((fun i => i * 10) ([5000] : List Nat).length) ∧
      ∀ j (hj : j < ([5000] : List Nat).length),
        ([5000] : List Nat).get ⟨j, hj⟩ =
          u32 ((u32 (u32 ((fun i => i * 10) 0) + u32 5) -
            u32 ((fun i => i * 10) j)) * 1000) ∧
        ([5000] : List Nat).get ⟨j, hj⟩ ≤
          (u32 (u32 ((fun i => i * 10) 0) + u32 5) -
            u32 ((fun i => i * 10) j)) * 1000) := by
  constructor
  · exact (blz_loop_timeout_spec (fun _ => true) (fun _ => 0) 5 1).1 rfl (by decide)
  · exact (blz_loop_timeout_spec (fun _ => false) (fun i => i * 10) 5 2).2
      (-1) [5000] (fun _ => rfl) (by decide)

/-- Claim C9: all deadline arithmetic is uint32_t; when the entry reading
plus the timeout wraps past 2^32, the comparison current_ms < end_ms is
already false at entry, the loop body never executes (no budgets), and the
function returns -1 immediately when the flag was not already true. -/
theorem blz_loop_timeout_wrap (flag : Nat → Bool) (clock : Nat → Nat)
    (timeout_ms fuel : Nat) (hfuel : 1 ≤ fuel) (hflag : flag 0 = false)
    (hwrap : 4294967296 ≤ u32 (clock 0) + u32 timeout_ms) :
    blz_loop_timeout flag clock timeout_ms fuel = some (-1, []) := by
  obtain ⟨f, rfl⟩ : ∃ f, fuel = f + 1 := ⟨fuel - 1, by omega⟩
  rw [blz_loop_timeout, blz_loop_timeout_aux]
  have hlt : ¬ (u32 (clock 0) < u32 (u32 (clock 0) + u32 timeout_ms)) := by
    simp only [u32] at hwrap ⊢
    omega
  simp [hflag, hlt]

/-- Claim C9 witness: entry reading 2^32 - 1 ms with a 1 ms timeout wraps the
deadline to 0, so the loop returns -1 with no iteration. -/
theorem blz_loop_timeout_wrap_witness :
    blz_loop_timeout (fun _ => false) (fun _ => 4294967295) 1 1 = some (-1, []) :=
  blz_loop_timeout_wrap (fun _ => false) (fun _ => 4294967295) 1 1
    (by decide) rfl (by decide)

/-- Claim C8: blz_disconnect on a non-NULL handle always attempts the remote
Disconnect call exactly once, frees each cached UUID list exactly once (also
when a list was never populated), releases the subscription slot only if
still present, and its behaviour does not depend on the remote call's result
(a failure is logged, not propagated). -/
theorem blz_disconnect_spec (d : DevRes) (r : Int) :
    countEv Event.disconnectCall (blz_disconnect (some d) r) = 1 ∧
    countEv Event.freeServiceUuids (blz_disconnect (some d) r) = 1 ∧
    countEv Event.freeCharUuids (blz_disconnect (some d) r) = 1 ∧
    countEv Event.slotUnref (blz_disconnect (some d) r) =
      (if d.connect_slot then 1 else 0) ∧
    blz_disconnect (some d) r = blz_disconnect (some d) 0 := by
  rcases d with ⟨slot, su, cu⟩
  cases slot <;> simp [blz_disconnect, countEv]

/-- Claim C10: passing NULL to the teardown operations is safe and has no
effect: blz_fini and blz_disconnect perform no action, and
blz_char_notify_stop returns false without issuing any call. -/
theorem null_teardown_safe (r s : Int) :
    blz_fini none = [] ∧ blz_disconnect none r = [] ∧
    blz_char_notify_stop none s = (false, []) :=
  ⟨rfl, rfl, rfl⟩

/-- Claim C5: connect_new_cb always sets the completion flag and stores in
the result field exactly the code it returns; for a non-error reply with a
successfully read object path that differs from the device's expected path
the code is -1 (failure despite remote success); a matching path returns the
read result, and an error reply returns -errno. -/
theorem connect_new_cb_spec (reply : Reply) (dev : CbDev) :
    (connect_new_cb reply dev).2.connect_new_done = true ∧
    (connect_new_cb reply dev).2.connect_new_result = (connect_new_cb reply dev).1 ∧
    (∀ (rr : Int) (op : String), reply = Reply.ok rr op → 0 ≤ rr →
      op ≠ dev.path → (connect_new_cb reply dev).1 = -1) ∧
    (∀ (rr : Int) (op : String), reply = Reply.ok rr op → op = dev.path →
      (connect_new_cb reply dev).1 = rr) ∧
    (∀ (e : Nat), reply = Reply.err e →
      (connect_new_cb reply dev).1 = -(e : Int)) := by
  rcases reply with e | ⟨rr, op⟩
  · simp [connect_new_cb]
  · by_cases h1 : rr < 0 <;> by_cases h2 : op = dev.path <;>
      simp [connect_new_cb, h1, h2]

/-- Claim C5 witness: a successful reply carrying path /x for a device
expecting /y completes with the failure code -1 stored. -/
theorem connect_new_cb_spec_witness :
    (connect_new_cb (Reply.ok 0 "/x") ⟨"/y", 0, false⟩).2.connect_new_done = true ∧
    (connect_new_cb (Reply.ok 0 "/x") ⟨"/y", 0, false⟩).1 = -1 := by
  have h := connect_new_cb_spec (Reply.ok 0 "/x") ⟨"/y", 0, false⟩
  exact ⟨h.1, h.2.2.1 0 "/x" rfl (by decide) (by decide)⟩

/-- Helper: a size_t value below 2^31 converts to the same int value. -/
theorem size_to_int_small (n : Nat) (h : n < 2147483648) : size_to_int n = n := by
  simp [size_to_int, Nat.mod_eq_of_lt (by omega : n < 4294967296), h]

/-- Claim C6: a successful blz_char_read returns the number of bytes the
remote sent and copies min(received, buffer length) bytes into the caller's
buffer, leaving the rest of the buffer unchanged (truncation when the remote
payload is larger than the buffer). -/
theorem blz_char_read_spec (f : CharFlags) (env : ReadEnv) (data : List Nat)
    (len : Nat) (hf : f.read = true) (hc : 0 ≤ env.call_r)
    (hr : 0 ≤ env.read_array_r) (hlen : env.payload.length < 2147483648) :
    (blz_char_read f env data len).1 = env.payload.length ∧
    (blz_char_read f env data len).2.1 =
      env.payload.take (min env.payload.length len) ++
        data.drop (min env.payload.length len) ∧
    min env.payload.length len ≤ len := by
  rw [blz_char_read]
  simp only [hf, if_neg (by omega : ¬ env.call_r < 0),
    if_neg (by omega : ¬ env.read_array_r < 0)]
  by_cases hp : 0 < env.payload.length
  · simp [hp, size_to_int_small _ hlen, Nat.min_le_right]
  · have h0 : env.payload.length = 0 := by omega
    simp [hp, h0, size_to_int_small 0 (by omega), List.length_eq_zero.mp h0]

/-- Claim C6 witness: a 3-byte payload read into a 2-byte buffer returns 3
and fills the buffer with the first 2 bytes. -/
theorem blz_char_read_spec_witness :
    (blz_char_read ⟨true, false, false, false, false⟩
        ⟨0, [1, 2, 3], 0⟩ [9, 9] 2).1 = (([1, 2, 3] : List Nat).length : Int) ∧
    (blz_char_read ⟨true, false, false, false, false⟩
        ⟨0, [1, 2, 3], 0⟩ [9, 9] 2).2.1 =
      ([1, 2, 3] : List Nat).take (min ([1, 2, 3] : List Nat).length 2) ++
        ([9, 9] : List Nat).drop (min ([1, 2, 3] : List Nat).length 2) ∧
    min ([1, 2, 3] : List Nat).length 2 ≤ 2 :=
  blz_char_read_spec ⟨true, false, false, false, false⟩ ⟨0, [1, 2, 3], 0⟩
    [9, 9] 2 rfl (by decide) (by decide) (by decide)

/-- Claim C7: each characteristic operation missing its required capability
flag returns its failure result with no bus request built or sent (empty
event trace): read needs the read flag, write needs write or
write-without-response, notify-start needs notify or indicate, and acquiring
the write descriptor needs write-without-response. -/
theorem capability_guard_spec (f : CharFlags) (envR : ReadEnv)
    (data : List Nat) (len : Nat) (envW : WriteEnv) (envN : NotifyStartEnv)
    (envA : AcquireEnv) :
    (f.read = false → blz_char_read f envR data len = (0, data, [])) ∧
    (f.write = false → f.write_without_response = false →
      blz_char_write f envW = (false, [])) ∧
    (f.notify = false → f.indicate = false →
      blz_char_notify_start f envN = (false, [])) ∧
    (f.write_without_response = false →
      blz_char_write_fd_acquire f envA = (-1, [])) := by
  refine ⟨?_, ?_, ?_, ?_⟩ <;> intros <;>
    simp_all [blz_char_read, blz_char_write, blz_char_notify_start,
      blz_char_write_fd_acquire]

/-- Claim C7 witness: on a characteristic with no capability flags, all four
operations fail with an empty event trace. -/
theorem capability_guard_spec_witness :
    blz_char_read ⟨false, false, false, false, false⟩ ⟨0, [], 0⟩ [] 0 =
      (0, [], []) ∧
    blz_char_write ⟨false, false, false, false, false⟩ ⟨0, 0, 0, 0, 0⟩ =
      (false, []) ∧
    blz_char_notify_start ⟨false, false, false, false, false⟩ ⟨0, 0, 0⟩ =
      (false, []) ∧
    blz_char_write_fd_acquire ⟨false, false, false, false, false⟩ ⟨0, 0, 0⟩ =
      (-1, []) := by
  have h := capability_guard_spec ⟨false, false, false, false, false⟩
    ⟨0, [], 0⟩ [] 0 ⟨0, 0, 0, 0, 0⟩ ⟨0, 0, 0⟩ ⟨0, 0, 0⟩
  exact ⟨h.1 rfl, h.2.1 rfl rfl, h.2.2.1 rfl rfl, h.2.2.2 rfl⟩

/-- Helper: a blz_connect_new call records exactly one attempt, carrying the
address type it was invoked with. -/
theorem attemptTypes_connect_new (env : ConnectNewEnv) (p : Bool) :
    attemptTypes (blz_connect_new env p).2 = [p] := by
  rw [blz_connect_new]
  split_ifs <;> simp [attemptTypes]

/-- Helper: blz_connect_new never emits a services-resolved wait event. -/
theorem connect_new_no_waitSR (env : ConnectNewEnv) (p b : Bool) :
    Event.waitServicesResolved b ∉ (blz_connect_new env p).2 := by
  rw [blz_connect_new]
  split_ifs <;> simp

/-- Helper: a trace whose prefix before a PropertiesChanged subscription
contains no connect call has no connect call before the subscription. -/
theorem connectsBeforeSub_eq_zero_of (l1 l2 : List Event)
    (h1 : ∀ e ∈ l1, isConnectCall e = false) :
    connectsBeforeSub (l1 ++ Event.matchPropertiesChanged :: l2) = 0 := by
  induction l1 with
  | nil => simp [connectsBeforeSub]
  | cons e rest ih =>
    rw [List.cons_append, connectsBeforeSub]
    by_cases he : e = Event.matchPropertiesChanged
    · simp [he]
    · rw [if_neg he, h1 e (by simp), ih (fun x hx => h1 x (by simp [hx]))]
      simp

/-- Helper: blz_connect_new never emits a remote Disconnect event. -/
theorem connect_new_no_disconnect (env : ConnectNewEnv) (p : Bool) :
    Event.disconnectCall ∉ (blz_connect_new env p).2 := by
  rw [blz_connect_new]
  split_ifs <;> simp

/-- Helper: the connect branch only appends to the given trace, the appended
events contain no services-resolved wait and no remote Disconnect, and the
blz_connect_new attempts recorded there are exactly those of retryAttempts in
the cs = -1 branch and none otherwise. -/
theorem blz_connect_branch_spec (env : ConnectEnv) (atype : AddrType) (cs : Int)
    (tr1 : List Event) :
    ∃ l, (blz_connect_branch env atype cs tr1).2 = tr1 ++ l ∧
      (∀ b, Event.waitServicesResolved b ∉ l) ∧
      Event.disconnectCall ∉ l ∧
      attemptTypes l = (if cs = -1 then retryAttempts env atype else []) := by
  rw [blz_connect_branch]
  by_cases hc0 : cs = 0
  · subst hc0
    refine ⟨[Event.connectCall], by simp, by simp, by simp, by simp [attemptTypes]⟩
  · rw [if_neg hc0]
    by_cases hc1 : cs = -1
    · subst hc1
      rw [if_pos rfl, if_pos rfl, retryAttempts]
      by_cases hr : (blz_connect_new env.new_env1
          (if atype = AddrType.public then true else false)).1 < 0
          ∧ atype = AddrType.unknown
      · rw [if_pos hr, if_pos hr]
        refine ⟨(blz_connect_new env.new_env1
            (if atype = AddrType.public then true else false)).2 ++
          (blz_connect_new env.new_env2
            (if atype = AddrType.public then false else true)).2,
          by simp [List.append_assoc], ?_, ?_, ?_⟩
        · intro b
          simp [connect_new_no_waitSR]
        · simp [connect_new_no_disconnect]
        · have h1 := attemptTypes_connect_new env.new_env1
            (if atype = AddrType.public then true else false)
          have h2 := attemptTypes_connect_new env.new_env2
            (if atype = AddrType.public then false else true)
          simp only [attemptTypes] at h1 h2 ⊢
          rw [List.filterMap_append, h1, h2]
          rfl
      · rw [if_neg hr, if_neg hr]
        refine ⟨(blz_connect_new env.new_env1
            (if atype = AddrType.public then true else false)).2,
          rfl, ?_, ?_, ?_⟩
        · intro b
          exact connect_new_no_waitSR env.new_env1 _ b
        · exact connect_new_no_disconnect env.new_env1 _
        · exact attemptTypes_connect_new env.new_env1 _
    · rw [if_neg hc1, if_neg hc1]
      exact ⟨[], by simp, by simp, by simp, by simp [attemptTypes]⟩

/-- Helper: in the tail of blz_connect the PropertiesChanged subscription
event precedes every connect call, whatever the branch taken. -/
theorem after_status_cbs (env : ConnectEnv) (atype : AddrType) (cs : Int)
    (sr : Bool) (tr0 : List Event)
    (h0 : ∀ e ∈ tr0, isConnectCall e = false) :
    connectsBeforeSub (blz_connect_after_status env atype cs sr tr0).2 = 0 := by
  obtain ⟨l, hl, -, -, -⟩ :=
    blz_connect_branch_spec env atype cs (tr0 ++ [Event.matchPropertiesChanged])
  rw [blz_connect_after_status]
  by_cases hm : env.match_signal_r < 0
  · rw [if_pos hm]
    simpa using connectsBeforeSub_eq_zero_of tr0 [] h0
  · rw [if_neg hm]
    by_cases hr : (blz_connect_branch env atype cs
        (tr0 ++ [Event.matchPropertiesChanged])).1 < 0
    · rw [if_pos hr]
      rw [hl]
      simp only [List.append_assoc, List.singleton_append]
      exact connectsBeforeSub_eq_zero_of _ _ h0
    · rw [if_neg hr]
      by_cases hs : (sr || env.wait_services_resolved) = true
      · rw [if_pos hs]
        simp only [hl, List.append_assoc, List.singleton_append, List.cons_append]
        exact connectsBeforeSub_eq_zero_of _ _ h0
      · rw [if_neg hs]
        simp only [hl, List.append_assoc, List.singleton_append, List.cons_append]
        exact connectsBeforeSub_eq_zero_of _ _ h0

/-- Helper: the connect attempts recorded by the tail of blz_connect are
exactly retryAttempts when the ConnectDevice branch (cs = -1) is reached
past the subscription, and none otherwise. -/
theorem after_status_attempts (env : ConnectEnv) (atype : AddrType) (cs : Int)
    (sr : Bool) (tr0 : List Event) (h0 : attemptTypes tr0 = []) :
    attemptTypes (blz_connect_after_status env atype cs sr tr0).2 =
      (if env.match_signal_r < 0 then []
       else if cs = -1 then retryAttempts env atype else []) := by
  obtain ⟨l, hl, -, -, hat⟩ :=
    blz_connect_branch_spec env atype cs (tr0 ++ [Event.matchPropertiesChanged])
  have htr1 : attemptTypes (tr0 ++ [Event.matchPropertiesChanged]) = [] := by
    simp only [attemptTypes] at h0 ⊢
    rw [List.filterMap_append, h0]
    rfl
  have hdis : ∀ (r : Int), attemptTypes (blz_disconnect
      (some { connect_slot := true, service_uuids := none, char_uuids := none })
      r) = [] := by
    intro r
    simp [blz_disconnect, attemptTypes]
  rw [blz_connect_after_status]
  by_cases hm : env.match_signal_r < 0
  · rw [if_pos hm, if_pos hm]
    exact htr1
  · rw [if_neg hm, if_neg hm]
    have hfull : attemptTypes (blz_connect_branch env atype cs
        (tr0 ++ [Event.matchPropertiesChanged])).2 =
        (if cs = -1 then retryAttempts env atype else []) := by
      rw [hl]
      simp only [attemptTypes] at htr1 hat ⊢
      rw [List.filterMap_append, htr1, hat]
      rfl
    by_cases hr : (blz_connect_branch env atype cs
        (tr0 ++ [Event.matchPropertiesChanged])).1 < 0
    · rw [if_pos hr]
      exact hfull
    · rw [if_neg hr]
      by_cases hs : (sr || env.wait_services_resolved) = true
      · rw [if_pos hs]
        simp only [attemptTypes] at hfull ⊢
        rw [List.filterMap_append, hfull]
        simp [attemptTypes]
      · rw [if_neg hs]
        simp only [attemptTypes] at hfull hdis ⊢
        rw [List.append_assoc, List.filterMap_append, hfull,
          List.filterMap_append, hdis]
        simp

/-- Helper: in the tail of blz_connect, a failed services-resolved wait
forces failure with a remote Disconnect, and a returned handle implies the
wait succeeded. -/
theorem after_status_c3 (env : ConnectEnv) (atype : AddrType) (cs : Int)
    (sr : Bool) (tr0 : List Event)
    (hw : ∀ b, Event.waitServicesResolved b ∉ tr0) :
    (Event.waitServicesResolved false ∈
        (blz_connect_after_status env atype cs sr tr0).2 →
      (blz_connect_after_status env atype cs sr tr0).1 = none ∧
      Event.disconnectCall ∈ (blz_connect_after_status env atype cs sr tr0).2) ∧
    (∀ d, (blz_connect_after_status env atype cs sr tr0).1 = some d →
      Event.waitServicesResolved true ∈
        (blz_connect_after_status env atype cs sr tr0).2) := by
  obtain ⟨l, hl, hnw, -, -⟩ :=
    blz_connect_branch_spec env atype cs (tr0 ++ [Event.matchPropertiesChanged])
  have hnw1 : ∀ b, Event.waitServicesResolved b ∉
      tr0 ++ [Event.matchPropertiesChanged] := by
    intro b
    simp [hw b]
  rw [blz_connect_after_status]
  by_cases hm : env.match_signal_r < 0
  · rw [if_pos hm]
    exact ⟨fun hmem => absurd hmem (hnw1 false), fun d hd => by simp at hd⟩
  · rw [if_neg hm]
    have hnwl : ∀ b, Event.waitServicesResolved b ∉
        (blz_connect_branch env atype cs
          (tr0 ++ [Event.matchPropertiesChanged])).2 := by
      intro b
      rw [hl]
      simp [hw b, hnw b]
    by_cases hr : (blz_connect_branch env atype cs
        (tr0 ++ [Event.matchPropertiesChanged])).1 < 0
    · rw [if_pos hr]
      exact ⟨fun hmem => absurd hmem (hnwl false), fun d hd => by simp at hd⟩
    · rw [if_neg hr]
      by_cases hs : (sr || env.wait_services_resolved) = true
      · rw [if_pos hs]
        constructor
        · intro hmem
          rw [List.mem_append] at hmem
          rcases hmem with hmem | hmem
          · exact absurd hmem (hnwl false)
          · rw [hs] at hmem
            simp at hmem
        · intro d _
          rw [hs]
          simp
      · rw [if_neg hs]
        have hs0 : (sr || env.wait_services_resolved) = false := by
          simp only [Bool.not_eq_true] at hs
          exact hs
        constructor
        · intro _
          refine ⟨rfl, ?_⟩
          simp [blz_disconnect]
        · intro d hd
          simp at hd

/-- Claim C4: in every execution of blz_connect, any connect call (the
path-based Connect or the address-based ConnectDevice attempt) occurs only
after the PropertiesChanged subscription event; a connect call is never
issued first. -/
theorem subscribe_before_connect (env : ConnectEnv) (atype : AddrType) :
    connectsBeforeSub (blz_connect env atype).2 = 0 := by
  rw [blz_connect]
  by_cases ha : env.alloc_ok = false
  · rw [if_pos ha]
    rfl
  · rw [if_neg ha]
    by_cases hp : env.path_ok = false
    · rw [if_pos hp]
      rfl
    · rw [if_neg hp]
      cases hq : env.connected_query with
      | otherError => simp [connectsBeforeSub, isConnectCall]
      | unknownObject =>
        exact after_status_cbs env atype (-1) false [Event.getConnected]
          (by intro e he; simp at he; subst he; rfl)
      | ok b =>
        cases b with
        | false =>
          exact after_status_cbs env atype 0 false [Event.getConnected]
            (by intro e he; simp at he; subst he; rfl)
        | true =>
          cases hsr : env.services_resolved_query with
          | none => simp [connectsBeforeSub, isConnectCall]
          | some sr =>
            exact after_status_cbs env atype 1 sr
              [Event.getConnected, Event.getServicesResolved]
              (by intro e he; simp at he; rcases he with he | he <;> subst he <;> rfl)

/-- Claim C3: whenever the ServicesResolved wait of blz_connect times out, a
compensating remote Disconnect is performed and blz_connect returns NULL; a
returned handle always comes from an execution whose ServicesResolved wait
succeeded. -/
theorem connect_no_half_connected (env : ConnectEnv) (atype : AddrType) :
    (Event.waitServicesResolved false ∈ (blz_connect env atype).2 →
      (blz_connect env atype).1 = none ∧
      Event.disconnectCall ∈ (blz_connect env atype).2) ∧
    (∀ d, (blz_connect env atype).1 = some d →
      Event.waitServicesResolved true ∈ (blz_connect env atype).2) := by
  rw [blz_connect]
  by_cases ha : env.alloc_ok = false
  · rw [if_pos ha]
    exact ⟨fun h => by simp at h, fun d hd => by simp at hd⟩
  · rw [if_neg ha]
    by_cases hp : env.path_ok = false
    · rw [if_pos hp]
      exact ⟨fun h => by simp at h, fun d hd => by simp at hd⟩
    · rw [if_neg hp]
      cases hq : env.connected_query with
      | otherError => exact ⟨fun h => by simp at h, fun d hd => by simp at hd⟩
      | unknownObject =>
        exact after_status_c3 env atype (-1) false [Event.getConnected]
          (fun b => by simp)
      | ok b =>
        cases b with
        | false =>
          exact after_status_c3 env atype 0 false [Event.getConnected]
            (fun b => by simp)
        | true =>
          cases hsr : env.services_resolved_query with
          | none => exact ⟨fun h => by simp at h, fun d hd => by simp at hd⟩
          | some sr =>
            exact after_status_c3 env atype 1 sr
              [Event.getConnected, Event.getServicesResolved] (fun b => by simp)

/-- Claim C3 witness: a device whose path-based Connect succeeds but whose
ServicesResolved wait times out yields a NULL handle and a remote Disconnect
in the trace. -/
theorem connect_no_half_connected_witness :
    (blz_connect ceC3 AddrType.public).1 = none ∧
    Event.disconnectCall ∈ (blz_connect ceC3 AddrType.public).2 :=
  (connect_no_half_connected ceC3 AddrType.public).1 (by decide)

/-- Claim C1 counterexample: with address type unspecified and the device
object path unknown (Connected query fails with unknown-object), the first
address-based connect attempt of blz_connect is issued with addr_public =
false, i.e. address type random, not public as the claim states; the retry
uses public. -/
theorem connect_retry_counterexample :
    attemptTypes (blz_connect ceC1 AddrType.unknown).2 = [false, true] ∧
    (attemptTypes (blz_connect ceC1 AddrType.unknown).2).head? ≠ some true := by
  decide

/-- Claim C1 (amended): with address type unspecified, the first
address-based connect attempt uses type random (addr_public = false); if it
fails, exactly one retry with the opposite type public is issued and a third
attempt never occurs; with a caller-specified address type at most one
attempt, with that type, is issued and a failure is never retried. -/
theorem connect_retry_spec (env : ConnectEnv) (atype : AddrType) :
    (attemptTypes (blz_connect env atype).2).length ≤ 2 ∧
    (atype ≠ AddrType.unknown →
      attemptTypes (blz_connect env atype).2 = [] ∨
      attemptTypes (blz_connect env atype).2 =
        [if atype = AddrType.public then true else false]) ∧
    (atype = AddrType.unknown →
      attemptTypes (blz_connect env atype).2 = [] ∨
      attemptTypes (blz_connect env atype).2 = [false] ∨
      attemptTypes (blz_connect env atype).2 = [false, true]) ∧
    (atype = AddrType.unknown → env.alloc_ok = true → env.path_ok = true →
      env.connected_query = ConnQuery.unknownObject → ¬ env.match_signal_r < 0 →
      (blz_connect_new env.new_env1 false).1 < 0 →
      attemptTypes (blz_connect env atype).2 = [false, true]) := by
  have hra : retryAttempts env atype =
        [if atype = AddrType.public then true else false] ∨
      (atype = AddrType.unknown ∧ retryAttempts env atype = [false, true]) := by
    rw [retryAttempts]
    by_cases h : (blz_connect_new env.new_env1
        (if atype = AddrType.public then true else false)).1 < 0
        ∧ atype = AddrType.unknown
    · right
      rw [if_pos h]
      refine ⟨h.2, ?_⟩
      rw [h.2]
      rfl
    · left
      rw [if_neg h]
  have hmain : attemptTypes (blz_connect env atype).2 = [] ∨
      attemptTypes (blz_connect env atype).2 = retryAttempts env atype := by
    rw [blz_connect]
    by_cases ha : env.alloc_ok = false
    · rw [if_pos ha]
      left
      rfl
    · rw [if_neg ha]
      by_cases hp : env.path_ok = false
      · rw [if_pos hp]
        left
        rfl
      · rw [if_neg hp]
        cases hq : env.connected_query with
        | otherError =>
          left
          rfl
        | unknownObject =>
          rw [after_status_attempts env atype (-1) false [Event.getConnected] rfl]
          by_cases hm : env.match_signal_r < 0
          · rw [if_pos hm]
            left
            rfl
          · rw [if_neg hm, if_pos rfl]
            right
            rfl
        | ok b =>
          cases b with
          | false =>
            rw [after_status_attempts env atype 0 false [Event.getConnected] rfl]
            left
            split_ifs <;> first | rfl | contradiction
          | true =>
            cases hsr : env.services_resolved_query with
            | none =>
              left
              rfl
            | some sr =>
              rw [after_status_attempts env atype 1 sr
                [Event.getConnected, Event.getServicesResolved] rfl]
              left
              split_ifs <;> first | rfl | contradiction
  refine ⟨?_, ?_, ?_, ?_⟩
  · rcases hmain with h | h
    · simp [h]
    · rcases hra with hr | ⟨-, hr⟩ <;> simp [h, hr]
  · intro hne
    rcases hmain with h | h
    · exact Or.inl h
    · rcases hra with hr | ⟨hu, -⟩
      · exact Or.inr (h.trans hr)
      · exact absurd hu hne
  · intro hu
    subst hu
    rcases hmain with h | h
    · exact Or.inl h
    · rcases hra with hr | ⟨-, hr⟩
      · exact Or.inr (Or.inl (by simpa using h.trans hr))
      · exact Or.inr (Or.inr (h.trans hr))
  · intro hu ha hp hq hm hfail
    subst hu
    rw [blz_connect, if_neg (by simp [ha]), if_neg (by simp [hp]), hq]
    rw [after_status_attempts env AddrType.unknown (-1) false
      [Event.getConnected] rfl]
    rw [if_neg hm, if_pos rfl, retryAttempts]
    rw [if_pos ⟨by simpa using hfail, rfl⟩]
    rfl

/-- Claim C1 (amended) witness: in the concrete unknown-device run whose
first (random) attempt fails, exactly the two attempts random then public
are issued. -/
theorem connect_retry_spec_witness :
    attemptTypes (blz_connect ceC1 AddrType.unknown).2 = [false, true] :=
  (connect_retry_spec ceC1 AddrType.unknown).2.2.2 rfl rfl rfl rfl
    (by decide) (by decide)

end Blzlib
